import Mathlib

/-!
Verification of src/plex-watchlist-profile-updater/plex_radarr_updater.py.

The Python source is shallowly embedded below: pure logic becomes Lean
functions, the Radarr library state is threaded explicitly as a list of
movie records, outbound API interactions are collected into an event
trace, and the per-call success of the write endpoint is supplied by an
oracle function. Python exceptions that the code lets escape (the
SystemExit raised by the bare exit() call on an empty watchlist) are
modeled by an Option result, none meaning the process terminates.
-/

/-! Python string primitives used by the source, embedded with structural
recursion over the character list so that every definition evaluates. -/

/-- Embeds Python str.lower() (the source only ever lowercases movie
titles before comparing them). -/
def pyLower (s : String) : String := ⟨s.data.map Char.toLower⟩

/-- Embeds the Python membership test `sep in s` for a nonempty separator:
true when sep occurs as a contiguous substring. -/
def hasSub (sep : List Char) : List Char → Bool
  | [] => false
  | c :: rest => sep.isPrefixOf (c :: rest) || hasSub sep rest

/-- Characters after the first occurrence of sep, the empty list when sep
does not occur. -/
def afterFirst (sep : List Char) : List Char → List Char
  | [] => []
  | c :: rest => if sep.isPrefixOf (c :: rest) then (c :: rest).drop sep.length
                 else afterFirst sep rest

/-- Characters before the first occurrence of sep, the whole list when sep
does not occur. -/
def beforeFirst (sep : List Char) : List Char → List Char
  | [] => []
  | c :: rest => if sep.isPrefixOf (c :: rest) then [] else c :: beforeFirst sep rest

/-- Embeds the Python expression `s in g` on strings. -/
def pyContains (sep g : String) : Bool := hasSub sep.data g.data

/-- Embeds the Python expression `g.split(sep)[1].split('?')[0]` as used in
PlexAPI.get_watchlist: the piece between the first occurrence of sep and
the following occurrence of sep (or the end), truncated at the first
question mark. -/
def extractId (sep g : String) : String :=
  ⟨beforeFirst ['?'] (beforeFirst sep.data (afterFirst sep.data g.data))⟩

/-- Python truthiness of an optional string as tested by `if imdb_id` or
`if tmdb_id`: None and the empty string are falsy. -/
def strTruthy : Option String → Bool
  | none => false
  | some s => !(s == "")

/-- Embeds the Python expression str(x) for x an optional integer JSON
field (str(None) is the four letter string). -/
def pyStrOptInt : Option Int → String
  | none => "None"
  | some n => toString n

/-! Data model: the dictionaries the Python code passes around, as records.
Field names follow the JSON keys / dictionary keys of the source. -/

/-- A movie record of the Radarr library, as returned by GET /api/v3/movie.
Optional fields model keys that movie.get may find absent. -/
structure RadarrMovie where
  id : Int
  title : String
  year : Option Int
  imdbId : Option String
  tmdbId : Option Int
  qualityProfileId : Int
deriving DecidableEq

/-- The movie_data dictionary built by PlexAPI.get_watchlist for one
watchlist item. -/
structure WatchlistMovie where
  title : String
  year : Option Int
  imdb_id : Option String
  tmdb_id : Option String
  rating_key : Option String
deriving DecidableEq

/-- A quality profile as returned by GET /api/v3/qualityprofile. -/
structure QualityProfile where
  name : String
  id : Int
deriving DecidableEq

/-- Observable outbound API interactions of a pass. fetchLibrary is the
full GET of all movies done by RadarrAPI.get_movies, fetchMovie and
putMovie are the two calls of RadarrAPI.update_movie_profile, and sleep n
is a time.sleep of n seconds. -/
inductive ApiEvent where
  | fetchLibrary : ApiEvent
  | fetchMovie : Int → ApiEvent
  | putMovie : Int → ApiEvent
  | sleep : Nat → ApiEvent
deriving DecidableEq

/-- Recognizes the full-library fetch events of a trace. -/
def ApiEvent.isLibraryFetch : ApiEvent → Bool
  | .fetchLibrary => true
  | _ => false

/-- Recognizes the sleep events of a trace. -/
def ApiEvent.isSleep : ApiEvent → Bool
  | .sleep _ => true
  | _ => false

/-- Recognizes the write (PUT) events of a trace. -/
def ApiEvent.isWrite : ApiEvent → Bool
  | .putMovie _ => true
  | _ => false

/-! RadarrAPI (the library repository side of the source). -/

/-- Match test applied by RadarrAPI.find_movie to each library movie in
order: the imdb id check, then the tmdb id check (both strings, Python
compares str(movie.get('tmdbId')) with str(tmdb_id)), then the
case-insensitive title comparison together with the year comparison
(movie.get('year') == year also succeeds when both sides are None). -/
def matchesQuery (title : String) (year : Option Int) (imdb_id tmdb_id : Option String)
    (movie : RadarrMovie) : Bool :=
  (strTruthy imdb_id && movie.imdbId == imdb_id) ||
  (strTruthy tmdb_id && pyStrOptInt movie.tmdbId == tmdb_id.getD "") ||
  (pyLower movie.title == pyLower title && movie.year == year)

/-- RadarrAPI.find_movie applied to an already fetched movie list: the
first movie, in list order, that passes any of the three checks. -/
def find_movie (movies : List RadarrMovie) (title : String) (year : Option Int)
    (imdb_id tmdb_id : Option String) : Option RadarrMovie :=
  movies.find? (matchesQuery title year imdb_id tmdb_id)

/-- Record written back by RadarrAPI.update_movie_profile: the freshly
fetched record with only the qualityProfileId key reassigned. -/
def writtenRecord (movie_data : RadarrMovie) (profile_id : Int) : RadarrMovie :=
  { movie_data with qualityProfileId := profile_id }

/-- RadarrAPI.update_movie_profile: GET the record with the given id, set
its qualityProfileId, PUT the whole record back. The PUT stores its body
under that id in the library. putOk gives the outcome of the PUT round
trip for each id (a failing HTTP status raises in Python and is caught by
the method, which then returns False with the library unchanged); a GET
that finds no record likewise raises, is caught, and returns False. -/
def update_movie_profile (movies : List RadarrMovie) (movie_id profile_id : Int)
    (putOk : Int → Bool) : Bool × List RadarrMovie × List ApiEvent :=
  match movies.find? (fun m => m.id == movie_id) with
  | none => (false, movies, [.fetchMovie movie_id])
  | some movie_data =>
    if putOk movie_id then
      (true,
       movies.map (fun x => if x.id == movie_id then writtenRecord movie_data profile_id else x),
       [.fetchMovie movie_id, .putMovie movie_id])
    else (false, movies, [.fetchMovie movie_id, .putMovie movie_id])

/-! PlexRadarrUpdater.process_watchlist and the functions around it. -/

/-- Per-pass counters. The Python code returns only updates_made; the
alreadyCorrect and unmatched fields count, as observations, how many
entries took the already-has-target continue branch and the
not-found-in-Radarr continue branch of the same loop. -/
structure Counts where
  updated : Nat
  alreadyCorrect : Nat
  unmatched : Nat
deriving DecidableEq

/-- Pointwise sum of counters. -/
def Counts.add (a b : Counts) : Counts :=
  ⟨a.updated + b.updated, a.alreadyCorrect + b.alreadyCorrect, a.unmatched + b.unmatched⟩

/-- Body of the for-loop of PlexRadarrUpdater.process_watchlist for one
watchlist movie: find_movie (which performs its own fresh full-library
fetch through RadarrAPI.get_movies), then either continue (not found),
continue (qualityProfileId already equals the target), or call
update_movie_profile, incrementing updates_made exactly when it returns
True. -/
def processEntry (movies : List RadarrMovie) (target_profile_id : Int) (putOk : Int → Bool)
    (movie : WatchlistMovie) : Counts × List RadarrMovie × List ApiEvent :=
  match find_movie movies movie.title movie.year movie.imdb_id movie.tmdb_id with
  | none => (⟨0, 0, 1⟩, movies, [.fetchLibrary])
  | some radarr_movie =>
    if radarr_movie.qualityProfileId == target_profile_id then
      (⟨0, 1, 0⟩, movies, [.fetchLibrary])
    else
      let r := update_movie_profile movies radarr_movie.id target_profile_id putOk
      ((if r.1 then ⟨1, 0, 0⟩ else ⟨0, 0, 0⟩), r.2.1, .fetchLibrary :: r.2.2)

/-- The whole for-loop of process_watchlist: entries handled sequentially
in the order received, threading the library state and concatenating the
event traces. -/
def processList (movies : List RadarrMovie) (target_profile_id : Int) (putOk : Int → Bool) :
    List WatchlistMovie → Counts × List RadarrMovie × List ApiEvent
  | [] => (⟨0, 0, 0⟩, movies, [])
  | w :: ws =>
    let r1 := processEntry movies target_profile_id putOk w
    let r2 := processList r1.2.1 target_profile_id putOk ws
    (r1.1.add r2.1, r2.2.1, r1.2.2 ++ r2.2.2)

/-- PlexRadarrUpdater.process_watchlist, given the watchlist that
PlexAPI.get_watchlist returned: when the watchlist is empty the code logs
a warning and calls the bare exit(), raising SystemExit (modeled as none,
the process terminates before any Radarr interaction); otherwise every
entry is processed in order and updates_made is returned together with
the final library state and the event trace. -/
def process_watchlist (movies : List RadarrMovie) (target_profile_id : Int)
    (putOk : Int → Bool) (watchlist_movies : List WatchlistMovie) :
    Option (Counts × List RadarrMovie × List ApiEvent) :=
  if watchlist_movies.isEmpty then none
  else some (processList movies target_profile_id putOk watchlist_movies)

/-- PlexRadarrUpdater.run_once: process_watchlist inside try/except
Exception, returning updates_made. SystemExit is not a subclass of
Exception in Python 3, so the exit() on an empty watchlist propagates
through run_once (none). -/
def run_once (movies : List RadarrMovie) (target_profile_id : Int) (putOk : Int → Bool)
    (watchlist_movies : List WatchlistMovie) : Option Nat :=
  (process_watchlist movies target_profile_id putOk watchlist_movies).map
    (fun r => r.1.updated)

/-- One iteration of the while-loop of PlexRadarrUpdater.run_continuous:
run_once inside try/except KeyboardInterrupt/except Exception, then
time.sleep(interval_minutes * 60). SystemExit matches neither handler, so
an exit() inside the pass escapes the loop and terminates the process
(none). -/
def runContinuousIter (movies : List RadarrMovie) (target_profile_id : Int)
    (putOk : Int → Bool) (watchlist_movies : List WatchlistMovie)
    (interval_minutes : Nat) : Option (Nat × List RadarrMovie × List ApiEvent) :=
  match process_watchlist movies target_profile_id putOk watchlist_movies with
  | none => none
  | some (c, movies2, evs) =>
    some (c.updated, movies2, evs ++ [.sleep (interval_minutes * 60)])

/-! PlexRadarrUpdater.setup_apis: resolution of the target profile. -/

/-- The for/break loop of setup_apis: target_profile_id becomes the id of
the first profile whose name equals the configured target name, and stays
None when no profile matches. -/
def resolveTargetProfileId (profiles : List QualityProfile) (target_profile_name : String) :
    Option Int :=
  (profiles.find? (fun p => p.name == target_profile_name)).map (fun p => p.id)

/-- The raise condition of setup_apis after the loop: the Python test
`if not self.target_profile_id` raises ValueError, and by Python
truthiness it fires both when no profile matched (None) and when the
first matching profile has id 0. -/
def setupRaises (profiles : List QualityProfile) (target_profile_name : String) : Bool :=
  match resolveTargetProfileId profiles target_profile_name with
  | none => true
  | some i => i == 0

/-- Setup phase of main: a ValueError raised by setup_apis during
PlexRadarrUpdater construction reaches the except Exception handler of
main, which calls exit(1). some 1 means the process exits with code 1
during setup; none means setup succeeded and the run proceeds. -/
def mainSetupExitCode (profiles : List QualityProfile) (target_profile_name : String) :
    Option Nat :=
  if setupRaises profiles target_profile_name then some 1 else none

/-! PlexAPI.get_watchlist: extraction of external identifiers. -/

/-- One item of account.watchlist() with the attributes get_watchlist
reads. isMovie embeds hasattr(item, TYPE) together with the movie type
test; guid is none when the item lacks a guid attribute. -/
structure PlexItem where
  isMovie : Bool
  title : String
  year : Option Int
  guid : Option String
  ratingKey : Option String
deriving DecidableEq

/-- The movie_data dictionary built for one watchlist item: both id
fields start as None, then the guid is scanned with an if/elif chain, so
the imdb scheme is extracted first and, when present, the tmdb scheme is
never looked at. -/
def watchlistItemData (item : PlexItem) : WatchlistMovie :=
  let base : WatchlistMovie :=
    { title := item.title, year := item.year, imdb_id := none, tmdb_id := none,
      rating_key := item.ratingKey }
  match item.guid with
  | none => base
  | some g =>
    if pyContains "imdb://" g then { base with imdb_id := some (extractId "imdb://" g) }
    else if pyContains "tmdb://" g then { base with tmdb_id := some (extractId "tmdb://" g) }
    else base

/-- PlexAPI.get_watchlist: keeps the movie-type items only and builds
movie_data for each, in order. -/
def get_watchlist (items : List PlexItem) : List WatchlistMovie :=
  (items.filter (fun i => i.isMovie)).map watchlistItemData

/-! Derived notions used by the theorems below. -/

/-- State transformer performed by a successful profile write when library
ids are unique: every record whose id matches gets the new profile, all
other fields and all other records are kept. -/
def setProfileById (movies : List RadarrMovie) (movie_id profile_id : Int) :
    List RadarrMovie :=
  movies.map (fun x => if x.id == movie_id then { x with qualityProfileId := profile_id }
                       else x)

/-- A watchlist entry is settled in a library state when any movie that
find_movie resolves it to already carries the target profile. -/
def goodFor (movies : List RadarrMovie) (target_profile_id : Int) (w : WatchlistMovie) :
    Prop :=
  ∀ m, find_movie movies w.title w.year w.imdb_id w.tmdb_id = some m →
    m.qualityProfileId = target_profile_id

/-! General lemmas about the embedded operations. -/

/-- Sum with the zero counter on the left. -/
theorem Counts.zero_add (c : Counts) : (⟨0, 0, 0⟩ : Counts).add c = c := by
  cases c; simp [Counts.add]

/-- Find? returns the element at index k when the predicate holds there
and fails at every earlier index. -/
theorem find?_eq_get_of_prev_false {α : Type} (p : α → Bool) (l : List α) (k : Nat)
    (hk : k < l.length) (hpk : p (l.get ⟨k, hk⟩) = true)
    (hprev : ∀ j (hj : j < l.length), j < k → p (l.get ⟨j, hj⟩) = false) :
    l.find? p = some (l.get ⟨k, hk⟩) := by
  induction l generalizing k with
  | nil => exact absurd hk (Nat.not_lt_zero k)
  | cons a as ih =>
    cases k with
    | zero =>
      simp only [List.get] at hpk
      simp [List.find?_cons, hpk]
    | succ k =>
      have hlen : 0 < (a :: as).length := Nat.succ_pos _
      have ha : p a = false := hprev 0 hlen (Nat.succ_pos _)
      rw [List.find?_cons, ha]
      exact ih k (Nat.lt_of_succ_lt_succ hk) hpk
        (fun j hj hjk => hprev (j + 1) (Nat.succ_lt_succ hj) (Nat.succ_lt_succ hjk))

/-! Claim C1: matching priority of find_movie. -/

/-- Claim C1, counterexample: with a library holding a title/year-only
record before the record that carries the watchlist entry's IMDB id,
find_movie returns the earlier title/year match, not the IMDB-bearing
record, so an identifier match is pre-empted by a title/year match on
another entry. -/
theorem find_movie_title_match_preempts_imdb :
    find_movie [⟨1, "Dune", some 2021, none, none, 3⟩,
                ⟨2, "Dune", some 2021, some "tt1160419", none, 3⟩]
        "Dune" (some 2021) (some "tt1160419") none =
      some ⟨1, "Dune", some 2021, none, none, 3⟩ ∧
    (⟨1, "Dune", some 2021, none, none, 3⟩ : RadarrMovie).imdbId ≠ some "tt1160419" := by
  constructor
  · decide
  · decide

/-- Claim C1, amended: find_movie scans the supplied library order and
returns the first entry passing any of the three checks; in particular,
when the entry at index k carries the watchlist entry's (non-empty) IMDB
id and no earlier entry matches on any rule, that IMDB-bearing entry is
returned. -/
theorem find_movie_imdb_selected_when_no_earlier_match
    (movies : List RadarrMovie) (title : String) (year : Option Int)
    (imdb_id tmdb_id : Option String) (k : Nat) (hk : k < movies.length)
    (htruthy : strTruthy imdb_id = true)
    (heq : (movies.get ⟨k, hk⟩).imdbId = imdb_id)
    (hprev : ∀ j (hj : j < movies.length), j < k →
      matchesQuery title year imdb_id tmdb_id (movies.get ⟨j, hj⟩) = false) :
    find_movie movies title year imdb_id tmdb_id = some (movies.get ⟨k, hk⟩) := by
  apply find?_eq_get_of_prev_false
  · simp only [matchesQuery, htruthy, Bool.true_and]
    rw [heq]
    simp
  · exact hprev

/-- Witness for the amended C1 theorem at a concrete library where the
IMDB-bearing entry sits behind a non-matching entry. -/
theorem find_movie_imdb_selected_witness :
    find_movie [⟨1, "Other", some 1999, none, none, 3⟩,
                ⟨2, "Dune", some 2021, some "tt1160419", none, 3⟩]
        "Dune" (some 2021) (some "tt1160419") none =
      some (⟨2, "Dune", some 2021, some "tt1160419", none, 3⟩ : RadarrMovie) :=
  find_movie_imdb_selected_when_no_earlier_match
    [⟨1, "Other", some 1999, none, none, 3⟩,
     ⟨2, "Dune", some 2021, some "tt1160419", none, 3⟩]
    "Dune" (some 2021) (some "tt1160419") none 1 (by decide) (by decide) rfl (by decide)

/-! Claim C2: behavior of a pass on an empty watchlist. -/

/-- Claim C2 (code bug): on an empty watchlist process_watchlist reaches
the bare exit() call, so the pass does not return the zero counters and
the process terminates (SystemExit propagates through run_once, whose
except clause only catches Exception). -/
theorem process_watchlist_empty_exits (movies : List RadarrMovie)
    (target_profile_id : Int) (putOk : Int → Bool) :
    process_watchlist movies target_profile_id putOk [] = none ∧
    run_once movies target_profile_id putOk [] = none :=
  ⟨rfl, rfl⟩

/-! Claim C3: how often the library is fetched in one pass. -/

/-- Each loop iteration of process_watchlist performs exactly one full
library fetch, inside find_movie. -/
theorem processEntry_one_library_fetch (movies : List RadarrMovie)
    (target_profile_id : Int) (putOk : Int → Bool) (w : WatchlistMovie) :
    ((processEntry movies target_profile_id putOk w).2.2).countP ApiEvent.isLibraryFetch
      = 1 := by
  unfold processEntry
  cases find_movie movies w.title w.year w.imdb_id w.tmdb_id with
  | none => rfl
  | some rm =>
    by_cases h : (rm.qualityProfileId == target_profile_id) = true
    · simp [h, List.countP_cons, List.countP_nil, ApiEvent.isLibraryFetch]
    · simp only [h, Bool.false_eq_true, if_false]
      unfold update_movie_profile
      cases movies.find? (fun m => m.id == rm.id) with
      | none => rfl
      | some md =>
        by_cases hok : putOk rm.id = true <;>
          simp [hok, ApiEvent.isLibraryFetch, List.countP_cons, List.countP_nil]

/-- Claim C3, counterexample: a pass over a two-entry watchlist performs
two full library fetches, not one. -/
theorem library_fetch_count_not_single :
    ((processList [⟨7, "Dune", some 2021, some "tt1160419", none, 3⟩] 5 (fun _ => true)
        [⟨"Dune", some 2021, some "tt1160419", none, none⟩,
         ⟨"Dune", some 2021, some "tt1160419", none, none⟩]).2.2).countP
      ApiEvent.isLibraryFetch = 2 ∧ (2 : Nat) ≠ 1 := by
  constructor
  · decide
  · decide

/-- Claim C3, amended: within one pass the full library set is fetched
once per watchlist entry (each find_movie call performs its own fresh
fetch of the current library state), so the number of full fetches equals
the number of watchlist entries. -/
theorem library_fetched_once_per_watchlist_entry (movies : List RadarrMovie)
    (target_profile_id : Int) (putOk : Int → Bool) (ws : List WatchlistMovie) :
    ((processList movies target_profile_id putOk ws).2.2).countP ApiEvent.isLibraryFetch
      = ws.length := by
  induction ws generalizing movies with
  | nil => rfl
  | cons w ws ih =>
    simp only [processList]
    rw [List.countP_append, processEntry_one_library_fetch, ih, List.length_cons]
    omega

/-! Claim C4: delay between processed entries. -/

/-- Claim C4, counterexample: processing a two-entry watchlist emits the
trace fetch, fetch-by-id, put, fetch, with no sleep event anywhere, so no
delay separates the two successively processed entries. -/
theorem no_sleep_between_entries :
    (processList [⟨7, "Dune", some 2021, some "tt1160419", none, 3⟩] 5 (fun _ => true)
        [⟨"Dune", some 2021, some "tt1160419", none, none⟩,
         ⟨"Dune", some 2021, some "tt1160419", none, none⟩]).2.2 =
      [.fetchLibrary, .fetchMovie 7, .putMovie 7, .fetchLibrary] ∧
    ((processList [⟨7, "Dune", some 2021, some "tt1160419", none, 3⟩] 5 (fun _ => true)
        [⟨"Dune", some 2021, some "tt1160419", none, none⟩,
         ⟨"Dune", some 2021, some "tt1160419", none, none⟩]).2.2).countP
      ApiEvent.isSleep = 0 := by
  constructor
  · decide
  · decide

/-- The loop body of process_watchlist never sleeps. -/
theorem processEntry_no_sleep (movies : List RadarrMovie) (target_profile_id : Int)
    (putOk : Int → Bool) (w : WatchlistMovie) :
    ((processEntry movies target_profile_id putOk w).2.2).countP ApiEvent.isSleep = 0 := by
  unfold processEntry
  cases find_movie movies w.title w.year w.imdb_id w.tmdb_id with
  | none => rfl
  | some rm =>
    by_cases h : (rm.qualityProfileId == target_profile_id) = true
    · simp [h, List.countP_cons, List.countP_nil, ApiEvent.isSleep]
    · simp only [h, Bool.false_eq_true, if_false]
      unfold update_movie_profile
      cases movies.find? (fun m => m.id == rm.id) with
      | none => rfl
      | some md =>
        by_cases hok : putOk rm.id = true <;>
          simp [hok, ApiEvent.isSleep, List.countP_cons, List.countP_nil]

/-- Claim C4, amended: no delay at all is inserted between successively
processed watchlist entries; the trace of a pass contains no sleep event
for any input (the only sleep of the program is the inter-pass interval
sleep of run_continuous). -/
theorem pass_trace_has_no_sleep (movies : List RadarrMovie) (target_profile_id : Int)
    (putOk : Int → Bool) (ws : List WatchlistMovie) :
    ((processList movies target_profile_id putOk ws).2.2).countP ApiEvent.isSleep = 0 := by
  induction ws generalizing movies with
  | nil => rfl
  | cons w ws ih =>
    simp only [processList]
    rw [List.countP_append, processEntry_no_sleep, ih]

/-! Claim C5: per-entry update failures. -/

/-- Claim C5: when the update call for a watchlist entry fails, the entry
contributes to none of the counters (neither updated nor alreadyCorrect),
the library state is left unchanged, the remaining entries are processed
exactly as they would have been, and run_once still returns normally
(per-entry failures never raise). -/
theorem failed_update_entry_skipped (movies : List RadarrMovie) (target_profile_id : Int)
    (putOk : Int → Bool) (w : WatchlistMovie) (ws : List WatchlistMovie)
    (rm : RadarrMovie)
    (hfind : find_movie movies w.title w.year w.imdb_id w.tmdb_id = some rm)
    (hneq : rm.qualityProfileId ≠ target_profile_id)
    (hfail : putOk rm.id = false) :
    processList movies target_profile_id putOk (w :: ws) =
      ((processList movies target_profile_id putOk ws).1,
       (processList movies target_profile_id putOk ws).2.1,
       .fetchLibrary ::
         ((update_movie_profile movies rm.id target_profile_id putOk).2.2 ++
          (processList movies target_profile_id putOk ws).2.2)) ∧
    run_once movies target_profile_id putOk (w :: ws) =
      some ((processList movies target_profile_id putOk ws).1.updated) := by
  have hupd : (update_movie_profile movies rm.id target_profile_id putOk).1 = false ∧
      (update_movie_profile movies rm.id target_profile_id putOk).2.1 = movies := by
    unfold update_movie_profile
    cases movies.find? (fun m => m.id == rm.id) with
    | none => exact ⟨rfl, rfl⟩
    | some md => simp [hfail]
  have hbeq : (rm.qualityProfileId == target_profile_id) = false := by
    simpa using hneq
  have hentry : processEntry movies target_profile_id putOk w =
      (⟨0, 0, 0⟩, movies,
       .fetchLibrary :: (update_movie_profile movies rm.id target_profile_id putOk).2.2) := by
    unfold processEntry
    rw [hfind]
    simp [hbeq, hupd.1, hupd.2]
  have hmain : processList movies target_profile_id putOk (w :: ws) =
      ((processList movies target_profile_id putOk ws).1,
       (processList movies target_profile_id putOk ws).2.1,
       .fetchLibrary ::
         ((update_movie_profile movies rm.id target_profile_id putOk).2.2 ++
          (processList movies target_profile_id putOk ws).2.2)) := by
    simp only [processList, hentry]
    rw [Counts.zero_add, List.cons_append]
  refine ⟨hmain, ?_⟩
  unfold run_once process_watchlist
  rw [if_neg (by simp)]
  rw [hmain]
  rfl

/-- Witness for the C5 theorem: a one-entry watchlist whose only update
call fails yields zero counters, an unchanged library, and a normal
run_once return of zero updates. -/
theorem failed_update_entry_skipped_witness :
    processList [⟨7, "Dune", some 2021, some "tt1160419", none, 3⟩] 5 (fun _ => false)
        [⟨"Dune", some 2021, some "tt1160419", none, none⟩] =
      (⟨0, 0, 0⟩, [⟨7, "Dune", some 2021, some "tt1160419", none, 3⟩],
       [.fetchLibrary, .fetchMovie 7, .putMovie 7]) ∧
    run_once [⟨7, "Dune", some 2021, some "tt1160419", none, 3⟩] 5 (fun _ => false)
        [⟨"Dune", some 2021, some "tt1160419", none, none⟩] = some 0 := by
  have h := failed_update_entry_skipped [⟨7, "Dune", some 2021, some "tt1160419", none, 3⟩]
    5 (fun _ => false) ⟨"Dune", some 2021, some "tt1160419", none, none⟩ []
    ⟨7, "Dune", some 2021, some "tt1160419", none, 3⟩ (by decide) (by decide) rfl
  exact ⟨h.1.trans (by decide), h.2.trans (by decide)⟩

/-! Claim C6: the read-modify-write frame of update_movie_profile. -/

/-- Claim C6: a successful update_movie_profile call writes back exactly
the record it just fetched with only qualityProfileId changed; every
other field of the written record equals the corresponding field of the
freshly fetched record, and the library stores that written record under
the entry's id. -/
theorem update_movie_profile_frame (movies : List RadarrMovie)
    (movie_id profile_id : Int) (putOk : Int → Bool) (movie_data : RadarrMovie)
    (hget : movies.find? (fun m => m.id == movie_id) = some movie_data)
    (hok : putOk movie_id = true) :
    update_movie_profile movies movie_id profile_id putOk =
      (true,
       movies.map (fun x => if x.id == movie_id then writtenRecord movie_data profile_id
                            else x),
       [.fetchMovie movie_id, .putMovie movie_id]) ∧
    (writtenRecord movie_data profile_id).id = movie_data.id ∧
    (writtenRecord movie_data profile_id).title = movie_data.title ∧
    (writtenRecord movie_data profile_id).year = movie_data.year ∧
    (writtenRecord movie_data profile_id).imdbId = movie_data.imdbId ∧
    (writtenRecord movie_data profile_id).tmdbId = movie_data.tmdbId ∧
    (writtenRecord movie_data profile_id).qualityProfileId = profile_id := by
  refine ⟨?_, rfl, rfl, rfl, rfl, rfl, rfl⟩
  unfold update_movie_profile
  rw [hget]
  simp [hok]

/-- Witness for the C6 theorem at a concrete one-movie library. -/
theorem update_movie_profile_frame_witness :
    update_movie_profile [⟨7, "Dune", some 2021, some "tt1160419", none, 3⟩] 7 5
        (fun _ => true) =
      (true, [⟨7, "Dune", some 2021, some "tt1160419", none, 5⟩],
       [.fetchMovie 7, .putMovie 7]) := by
  have h := update_movie_profile_frame [⟨7, "Dune", some 2021, some "tt1160419", none, 3⟩]
    7 5 (fun _ => true) ⟨7, "Dune", some 2021, some "tt1160419", none, 3⟩ (by decide) rfl
  exact h.1.trans (by decide)

/-! Claim C7: fail-fast resolution of the target profile. -/

/-- Claim C7, counterexample: two profiles carrying the configured name
do not make setup fail; the for/break loop silently picks the first
matching profile's id and the run proceeds (main does not exit). -/
theorem duplicate_profile_names_not_rejected :
    setupRaises [⟨"HD-1080p", 1⟩, ⟨"HD-1080p", 2⟩] "HD-1080p" = false ∧
    resolveTargetProfileId [⟨"HD-1080p", 1⟩, ⟨"HD-1080p", 2⟩] "HD-1080p" = some 1 ∧
    mainSetupExitCode [⟨"HD-1080p", 1⟩, ⟨"HD-1080p", 2⟩] "HD-1080p" = none := by
  refine ⟨?_, ?_, ?_⟩ <;> decide

/-- Claim C7, amended: setup fails fast exactly when the configured name
matches no profile, or when the first matching profile (in fetch order)
has id 0 (Python truthiness); several profiles sharing the name do not
cause failure, the first one's id is used. When setup raises, main exits
with code 1 before any update is attempted. -/
theorem setup_raises_characterization (profiles : List QualityProfile)
    (target_profile_name : String) :
    setupRaises profiles target_profile_name =
      ((profiles.filter (fun p => p.name == target_profile_name)).head?.all
        (fun p => p.id == 0)) ∧
    mainSetupExitCode profiles target_profile_name =
      (if ((profiles.filter (fun p => p.name == target_profile_name)).head?.all
            (fun p => p.id == 0)) then some 1 else none) := by
  have hmain : setupRaises profiles target_profile_name =
      ((profiles.filter (fun p => p.name == target_profile_name)).head?.all
        (fun p => p.id == 0)) := by
    induction profiles with
    | nil => rfl
    | cons q qs ih =>
      by_cases h : (q.name == target_profile_name) = true
      · simp [setupRaises, resolveTargetProfileId, List.find?_cons, List.filter_cons, h,
          Option.all]
      · have h2 : (q.name == target_profile_name) = false := by simpa using h
        simp only [setupRaises, resolveTargetProfileId, List.find?_cons, List.filter_cons,
          h2] at ih ⊢
        exact ih
  refine ⟨hmain, ?_⟩
  rw [mainSetupExitCode, hmain]

/-! Claim C9: crash isolation of the scheduler loop. -/

/-- Claim C9 (code bug): the SystemExit raised by the exit() call on an
empty watchlist matches neither the except KeyboardInterrupt nor the
except Exception handler of run_continuous, so it escapes the loop and
the process dies from that single pass instead of sleeping and
continuing. -/
theorem run_continuous_dies_on_empty_watchlist (movies : List RadarrMovie)
    (target_profile_id : Int) (putOk : Int → Bool) (interval_minutes : Nat) :
    runContinuousIter movies target_profile_id putOk [] interval_minutes = none :=
  rfl

/-! Claim C10: mutual exclusion of the extracted external identifiers. -/

/-- Claim C10: every watchlist entry built by get_watchlist carries at
most one external identifier (imdb_id and tmdb_id are never both
non-null), and when the guid contains both the imdb and the tmdb scheme
the if/elif chain extracts only the IMDB identifier and discards the TMDB
one. -/
theorem watchlist_single_external_id (items : List PlexItem) (item : PlexItem) :
    (∀ w ∈ get_watchlist items, w.imdb_id = none ∨ w.tmdb_id = none) ∧
    (∀ g, item.guid = some g → pyContains "imdb://" g = true →
      (watchlistItemData item).imdb_id = some (extractId "imdb://" g) ∧
      (watchlistItemData item).tmdb_id = none) := by
  constructor
  · intro w hw
    unfold get_watchlist at hw
    obtain ⟨it, hit, rfl⟩ := List.mem_map.mp hw
    unfold watchlistItemData
    cases it.guid with
    | none => exact Or.inl rfl
    | some g =>
      by_cases h1 : pyContains "imdb://" g = true
      · simp [h1]
      · by_cases h2 : pyContains "tmdb://" g = true
        · simp [h1, h2]
        · simp [h1, h2]
  · intro g hg h1
    unfold watchlistItemData
    rw [hg]
    simp [h1]

/-- Witness for the C10 theorem at a guid carrying both schemes. -/
theorem watchlist_single_external_id_witness :
    (watchlistItemData ⟨true, "Dune", some 2021,
        some "imdb://tt1160419?tmdb://438631", none⟩).imdb_id = some "tt1160419" ∧
    (watchlistItemData ⟨true, "Dune", some 2021,
        some "imdb://tt1160419?tmdb://438631", none⟩).tmdb_id = none := by
  have h := (watchlist_single_external_id []
    ⟨true, "Dune", some 2021, some "imdb://tt1160419?tmdb://438631", none⟩).2
    "imdb://tt1160419?tmdb://438631" rfl (by decide)
  exact ⟨h.1.trans (by decide), h.2⟩

/-! Claim C8: idempotence of a pass. The lemmas below track how a pass
transforms the library state: when ids are unique, each successful write
replaces exactly the matched record's profile by the target, every other
field of every record is untouched, and matching is insensitive to
profile values, so after one all-successful pass every entry a watchlist
movie resolves to carries the target profile. -/

/-- Under unique ids, the PUT of update_movie_profile rewrites the record
at the matched id in place: writing back the fetched record with the new
profile equals updating the profile field of the stored record. -/
theorem map_written_eq_setProfile (movies : List RadarrMovie) (movie_id profile_id : Int)
    (md : RadarrMovie) (hfind : movies.find? (fun m => m.id == movie_id) = some md)
    (hnd : (movies.map (fun m => m.id)).Nodup) :
    movies.map (fun x => if x.id == movie_id then writtenRecord md profile_id else x) =
      setProfileById movies movie_id profile_id := by
  unfold setProfileById
  induction movies with
  | nil => rfl
  | cons a as ih =>
    rw [List.find?_cons] at hfind
    rw [List.map_cons, List.nodup_cons] at hnd
    by_cases ha : (a.id == movie_id) = true
    · simp only [ha] at hfind
      have had : a = md := by simpa using hfind
      have haeq : a.id = movie_id := by simpa using ha
      have htail : ∀ x ∈ as, (x.id == movie_id) = false := by
        intro x hx
        have hne : x.id ≠ a.id := by
          intro hcontra
          exact hnd.1 (List.mem_map.mpr ⟨x, hx, hcontra⟩)
        simp [haeq ▸ hne]
      rw [List.map_cons, List.map_cons, if_pos ha, if_pos ha, ← had]
      have h1 : as.map (fun x => if x.id == movie_id then writtenRecord a profile_id
          else x) = as := by
        have hmc := List.map_congr_left (l := as)
          (f := fun x => if x.id == movie_id then writtenRecord a profile_id else x)
          (g := id) (fun x hx => by simp [htail x hx])
        rw [hmc, List.map_id]
      have h2 : as.map (fun x => if x.id == movie_id then
          { x with qualityProfileId := profile_id } else x) = as := by
        have hmc := List.map_congr_left (l := as)
          (f := fun x => if x.id == movie_id then { x with qualityProfileId := profile_id }
            else x)
          (g := id) (fun x hx => by simp [htail x hx])
        rw [hmc, List.map_id]
      rw [h1, h2]
      rfl
    · simp only [ha, Bool.false_eq_true] at hfind
      rw [List.map_cons, List.map_cons, if_neg (by simp [ha]), if_neg (by simp [ha])]
      rw [ih hfind hnd.2]

/-- Under unique ids, an update_movie_profile call either leaves the
library unchanged (missing id or failed PUT) or performs exactly the
profile rewrite at the given id. -/
theorem update_movie_profile_state (movies : List RadarrMovie) (movie_id profile_id : Int)
    (putOk : Int → Bool) (hnd : (movies.map (fun m => m.id)).Nodup) :
    (update_movie_profile movies movie_id profile_id putOk).2.1 = movies ∨
    (update_movie_profile movies movie_id profile_id putOk).2.1 =
      setProfileById movies movie_id profile_id := by
  unfold update_movie_profile
  cases hfind : movies.find? (fun m => m.id == movie_id) with
  | none => exact Or.inl rfl
  | some md =>
    by_cases hok : putOk movie_id = true
    · right
      simp only [hok, if_true]
      exact map_written_eq_setProfile movies movie_id profile_id md hfind hnd
    · left
      simp [hok]

/-- Rewriting a profile changes no record's id. -/
theorem setProfileById_ids (movies : List RadarrMovie) (movie_id profile_id : Int) :
    (setProfileById movies movie_id profile_id).map (fun m => m.id) =
      movies.map (fun m => m.id) := by
  unfold setProfileById
  rw [List.map_map]
  exact List.map_congr_left (fun x hx => by
    by_cases h : x.id = movie_id
    · simp [h]
    · simp [h])

/-- One loop iteration changes no record's id (whatever the oracle says). -/
theorem processEntry_ids (movies : List RadarrMovie) (target_profile_id : Int)
    (putOk : Int → Bool) (w : WatchlistMovie)
    (hnd : (movies.map (fun m => m.id)).Nodup) :
    ((processEntry movies target_profile_id putOk w).2.1).map (fun m => m.id) =
      movies.map (fun m => m.id) := by
  unfold processEntry
  cases find_movie movies w.title w.year w.imdb_id w.tmdb_id with
  | none => rfl
  | some rm =>
    by_cases h : (rm.qualityProfileId == target_profile_id) = true
    · simp [h]
    · simp only [h, Bool.false_eq_true, if_false]
      rcases update_movie_profile_state movies rm.id target_profile_id putOk hnd with h1 | h1
      · rw [h1]
      · rw [h1, setProfileById_ids]

/-- Find_movie never looks at qualityProfileId, so it commutes with the
profile rewrite: the match in the rewritten library is the rewrite of the
match in the original library. -/
theorem find_movie_setProfileById (movies : List RadarrMovie) (movie_id profile_id : Int)
    (title : String) (year : Option Int) (imdb_id tmdb_id : Option String) :
    find_movie (setProfileById movies movie_id profile_id) title year imdb_id tmdb_id =
      (find_movie movies title year imdb_id tmdb_id).map
        (fun x => if x.id == movie_id then { x with qualityProfileId := profile_id }
                  else x) := by
  unfold find_movie setProfileById
  rw [List.find?_map]
  have hcomp : (matchesQuery title year imdb_id tmdb_id ∘
      (fun x => if x.id == movie_id then { x with qualityProfileId := profile_id } else x))
      = matchesQuery title year imdb_id tmdb_id := by
    funext x
    by_cases h : (x.id == movie_id) = true
    · simp only [Function.comp_apply, h, if_true]
      rfl
    · simp only [Function.comp_apply, h, Bool.false_eq_true, if_false]
  rw [hcomp]

/-- A profile rewrite to the target keeps a settled entry settled. -/
theorem goodFor_setProfileById (movies : List RadarrMovie) (movie_id target_profile_id : Int)
    (w : WatchlistMovie) (h : goodFor movies target_profile_id w) :
    goodFor (setProfileById movies movie_id target_profile_id) target_profile_id w := by
  intro m hm
  rw [find_movie_setProfileById] at hm
  cases hfm : find_movie movies w.title w.year w.imdb_id w.tmdb_id with
  | none => rw [hfm] at hm; cases hm
  | some x =>
    rw [hfm] at hm
    simp only [Option.map_some'] at hm
    have hx := h x hfm
    by_cases hid : (x.id == movie_id) = true
    · rw [if_pos hid] at hm
      injection hm with hm2
      rw [← hm2]
    · rw [if_neg hid] at hm
      injection hm with hm2
      rw [← hm2]
      exact hx

/-- Under unique ids, the state after one loop iteration is the old state
or a single profile rewrite to the target. -/
theorem processEntry_state (movies : List RadarrMovie) (target_profile_id : Int)
    (putOk : Int → Bool) (w : WatchlistMovie)
    (hnd : (movies.map (fun m => m.id)).Nodup) :
    (processEntry movies target_profile_id putOk w).2.1 = movies ∨
    ∃ movie_id, (processEntry movies target_profile_id putOk w).2.1 =
      setProfileById movies movie_id target_profile_id := by
  unfold processEntry
  cases find_movie movies w.title w.year w.imdb_id w.tmdb_id with
  | none => exact Or.inl rfl
  | some rm =>
    by_cases h : (rm.qualityProfileId == target_profile_id) = true
    · left
      simp [h]
    · simp only [h, Bool.false_eq_true, if_false]
      rcases update_movie_profile_state movies rm.id target_profile_id putOk hnd with h1 | h1
      · exact Or.inl h1
      · exact Or.inr ⟨rm.id, h1⟩

/-- One loop iteration keeps any settled entry settled. -/
theorem goodFor_processEntry (movies : List RadarrMovie) (target_profile_id : Int)
    (putOk : Int → Bool) (w v : WatchlistMovie)
    (hnd : (movies.map (fun m => m.id)).Nodup)
    (h : goodFor movies target_profile_id v) :
    goodFor (processEntry movies target_profile_id putOk w).2.1 target_profile_id v := by
  rcases processEntry_state movies target_profile_id putOk w hnd with h1 | ⟨mid, h1⟩
  · rw [h1]; exact h
  · rw [h1]; exact goodFor_setProfileById movies mid target_profile_id v h

/-- The rest of a pass keeps any settled entry settled. -/
theorem goodFor_processList_preserve (movies : List RadarrMovie) (target_profile_id : Int)
    (putOk : Int → Bool) (ws : List WatchlistMovie) (v : WatchlistMovie)
    (hnd : (movies.map (fun m => m.id)).Nodup)
    (h : goodFor movies target_profile_id v) :
    goodFor (processList movies target_profile_id putOk ws).2.1 target_profile_id v := by
  induction ws generalizing movies with
  | nil => exact h
  | cons w ws ih =>
    simp only [processList]
    have hnd1 : (((processEntry movies target_profile_id putOk w).2.1).map
        (fun m => m.id)).Nodup := by
      rw [processEntry_ids movies target_profile_id putOk w hnd]
      exact hnd
    exact ih _ hnd1 (goodFor_processEntry movies target_profile_id putOk w v hnd h)

/-- After its own loop iteration with a succeeding write oracle, a
watchlist entry is settled: whichever record it now resolves to carries
the target profile. -/
theorem goodFor_self_processEntry (movies : List RadarrMovie) (target_profile_id : Int)
    (w : WatchlistMovie) (hnd : (movies.map (fun m => m.id)).Nodup) :
    goodFor (processEntry movies target_profile_id (fun _ => true) w).2.1
      target_profile_id w := by
  unfold processEntry
  cases hfm : find_movie movies w.title w.year w.imdb_id w.tmdb_id with
  | none =>
    intro m hm
    rw [hfm] at hm
    cases hm
  | some rm =>
    by_cases h : (rm.qualityProfileId == target_profile_id) = true
    · simp only [h, if_true]
      intro m hm
      rw [hfm] at hm
      injection hm with hm2
      rw [← hm2]
      simpa using h
    · simp only [h, Bool.false_eq_true, if_false]
      have hmem : rm ∈ movies := List.mem_of_find?_eq_some hfm
      have hsome : (movies.find? (fun m => m.id == rm.id)).isSome := by
        rw [List.find?_isSome]
        exact ⟨rm, hmem, by simp⟩
      obtain ⟨md, hmd⟩ := Option.isSome_iff_exists.mp hsome
      have hstate : (update_movie_profile movies rm.id target_profile_id
          (fun _ => true)).2.1 = setProfileById movies rm.id target_profile_id := by
        unfold update_movie_profile
        rw [hmd]
        simp only [if_true]
        exact map_written_eq_setProfile movies rm.id target_profile_id md hmd hnd
      show goodFor (update_movie_profile movies rm.id target_profile_id
        (fun _ => true)).2.1 target_profile_id w
      rw [hstate]
      intro m hm
      rw [find_movie_setProfileById, hfm] at hm
      simp only [Option.map_some'] at hm
      rw [if_pos (by simp : (rm.id == rm.id) = true)] at hm
      injection hm with hm2
      rw [← hm2]

/-- After a pass in which every write succeeds, every watchlist entry of
that pass is settled in the final library state. -/
theorem goodFor_after_pass (movies : List RadarrMovie) (target_profile_id : Int)
    (ws : List WatchlistMovie) (hnd : (movies.map (fun m => m.id)).Nodup) :
    ∀ w ∈ ws, goodFor (processList movies target_profile_id (fun _ => true) ws).2.1
      target_profile_id w := by
  induction ws generalizing movies with
  | nil =>
    intro w hw
    cases hw
  | cons v vs ih =>
    intro w hw
    simp only [processList]
    have hnd1 : (((processEntry movies target_profile_id (fun _ => true) v).2.1).map
        (fun m => m.id)).Nodup := by
      rw [processEntry_ids movies target_profile_id (fun _ => true) v hnd]
      exact hnd
    rcases List.mem_cons.mp hw with rfl | hw2
    · exact goodFor_processList_preserve _ target_profile_id (fun _ => true) vs w hnd1
        (goodFor_self_processEntry movies target_profile_id w hnd)
    · exact ih _ hnd1 w hw2

/-- A pass over a library in which every entry is already settled makes
zero updates and leaves the library untouched. -/
theorem pass_updated_zero_of_goodFor (movies : List RadarrMovie) (target_profile_id : Int)
    (putOk : Int → Bool) (ws : List WatchlistMovie)
    (h : ∀ w ∈ ws, goodFor movies target_profile_id w) :
    (processList movies target_profile_id putOk ws).1.updated = 0 ∧
    (processList movies target_profile_id putOk ws).2.1 = movies := by
  induction ws with
  | nil => exact ⟨rfl, rfl⟩
  | cons w ws ih =>
    have hw := h w (List.mem_cons_self w ws)
    obtain ⟨ih1, ih2⟩ := ih (fun v hv => h v (List.mem_cons_of_mem w hv))
    cases hfm : find_movie movies w.title w.year w.imdb_id w.tmdb_id with
    | none =>
      have he : processEntry movies target_profile_id putOk w =
          (⟨0, 0, 1⟩, movies, [.fetchLibrary]) := by
        unfold processEntry
        rw [hfm]
      constructor
      · simp only [processList, he]
        simp [Counts.add, ih1]
      · simp only [processList, he]
        exact ih2
    | some rm =>
      have hq : rm.qualityProfileId = target_profile_id := hw rm hfm
      have he : processEntry movies target_profile_id putOk w =
          (⟨0, 1, 0⟩, movies, [.fetchLibrary]) := by
        have hbq : (rm.qualityProfileId == target_profile_id) = true := by simp [hq]
        unfold processEntry
        rw [hfm]
        simp [hbq]
      constructor
      · simp only [processList, he]
        simp [Counts.add, ih1]
      · simp only [processList, he]
        exact ih2

/-- Claim C8: with unique library ids and every write succeeding, running
the pass a second time over the state the first pass produced (same
watchlist) makes zero updates, because every entry matched in the first
pass then already carries the target profile. -/
theorem second_run_makes_zero_updates (movies : List RadarrMovie)
    (target_profile_id : Int) (watchlist_movies : List WatchlistMovie)
    (hnd : (movies.map (fun m => m.id)).Nodup)
    (c1 : Counts) (st1 : List RadarrMovie) (ev1 : List ApiEvent)
    (h1 : process_watchlist movies target_profile_id (fun _ => true) watchlist_movies =
      some (c1, st1, ev1)) :
    ∃ c2 st2 ev2,
      process_watchlist st1 target_profile_id (fun _ => true) watchlist_movies =
        some (c2, st2, ev2) ∧ c2.updated = 0 := by
  unfold process_watchlist at h1 ⊢
  by_cases hemp : watchlist_movies.isEmpty = true
  · rw [if_pos hemp] at h1
    cases h1
  · rw [if_neg hemp] at h1 ⊢
    injection h1 with h2
    have hgood : ∀ w ∈ watchlist_movies, goodFor st1 target_profile_id w := by
      intro w hw
      have := goodFor_after_pass movies target_profile_id watchlist_movies hnd w hw
      rw [h2] at this
      exact this
    obtain ⟨hz, _⟩ := pass_updated_zero_of_goodFor st1 target_profile_id (fun _ => true)
      watchlist_movies hgood
    exact ⟨_, _, _, rfl, hz⟩

/-- Witness for the C8 theorem: the concrete first pass updates one movie
to the target profile, and a second pass over its output state makes zero
updates. -/
theorem second_run_makes_zero_updates_witness :
    ∃ c2 st2 ev2,
      process_watchlist [⟨7, "Dune", some 2021, some "tt1160419", none, 5⟩] 5
        (fun _ => true) [⟨"Dune", some 2021, some "tt1160419", none, none⟩] =
        some (c2, st2, ev2) ∧ c2.updated = 0 :=
  second_run_makes_zero_updates [⟨7, "Dune", some 2021, some "tt1160419", none, 3⟩] 5
    [⟨"Dune", some 2021, some "tt1160419", none, none⟩] (by decide)
    ⟨1, 0, 0⟩ [⟨7, "Dune", some 2021, some "tt1160419", none, 5⟩]
    [.fetchLibrary, .fetchMovie 7, .putMovie 7] (by decide)
